import Mathlib

/-!
Shallow embedding of the Quest Lifecycle & Participant Matching Engine of the
YorkPulse backend (`app/models/buddy.py`, `app/schemas/buddy.py`,
`app/api/routes/buddy.py`, `app/services/quest_cleanup.py`).

Times (`datetime`) are modelled as seconds since an arbitrary epoch (`Int`);
`timedelta(weeks=1)` is `7 * 86400` seconds.  Latitude/longitude floats are
abstracted as integers (no verified property depends on them).  UUIDs are
modelled as `Nat`.  The FastAPI dependency layer (`CurrentUser` /
`VerifiedUser`) resolves authentication before a handler body runs; handlers
are modelled as functions of the already-resolved caller id.  Database rows
are modelled as Lean structures, a quest's participant rows as a list, and
`scalar_one_or_none` as `List.find?` (the application keeps at most one
participant row per (quest, user) pair).
-/

namespace YorkPulse

/-- Quest status enum, from `BuddyRequestStatus` in `app/models/buddy.py`. -/
inductive BuddyRequestStatus where
  | OPEN
  | IN_PROGRESS
  | FULL
  | COMPLETED
  | CANCELLED
deriving DecidableEq, Repr

/-- Participant status enum, from `ParticipantStatus` in `app/models/buddy.py`. -/
inductive ParticipantStatus where
  | PENDING
  | ACCEPTED
  | REJECTED
  | CANCELLED
deriving DecidableEq, Repr

/-- Category enum, from `BuddyCategory` in `app/models/buddy.py`. -/
inductive BuddyCategory where
  | GYM
  | FOOD
  | GAME
  | COMMUTE
  | STUDY
  | CUSTOM
deriving DecidableEq, Repr

/-- Vibe level enum, from `VibeLevel` in `app/models/buddy.py`. -/
inductive VibeLevel where
  | CHILL
  | INTERMEDIATE
  | HIGH_ENERGY
  | INTENSE
  | CUSTOM
deriving DecidableEq, Repr

/-- Error raised by a route handler (`fastapi.HTTPException`). -/
structure HTTPException where
  status_code : Nat
  detail : String
deriving DecidableEq, Repr

/-- Quest row, from the `BuddyRequest` model in `app/models/buddy.py`
(`id`, `created_at`, `updated_at` come from the UUID/timestamp mixins). -/
structure BuddyRequest where
  id : Nat
  user_id : Nat
  category : BuddyCategory
  custom_category : Option String := none
  activity : String
  description : Option String := none
  vibe_level : VibeLevel := .CHILL
  custom_vibe_level : Option String := none
  start_time : Int
  end_time : Option Int := none
  location : String
  latitude : Option Int := none
  longitude : Option Int := none
  max_participants : Nat := 2
  current_participants : Nat := 1
  requires_approval : Bool := true
  status : BuddyRequestStatus := .OPEN
  created_at : Int := 0
  updated_at : Int := 0
deriving DecidableEq, Repr

/-- Participant row, from the `BuddyParticipant` model in `app/models/buddy.py`. -/
structure BuddyParticipant where
  id : Nat
  buddy_request_id : Nat
  user_id : Nat
  status : ParticipantStatus := .PENDING
  message : Option String := none
deriving DecidableEq, Repr

/-- Creation payload, from the `BuddyRequestCreate` schema in `app/schemas/buddy.py`. -/
structure BuddyRequestCreate where
  category : BuddyCategory
  custom_category : Option String := none
  activity : String
  description : Option String := none
  start_time : Int
  end_time : Option Int := none
  location : String
  latitude : Option Int := none
  longitude : Option Int := none
  vibe_level : VibeLevel := .CHILL
  custom_vibe_level : Option String := none
  max_participants : Nat := 2
  requires_approval : Bool := true
deriving DecidableEq, Repr

/-- Partial-update payload, from the `BuddyRequestUpdate` schema in
`app/schemas/buddy.py`.  Note there are no cross-field validators on this
schema. -/
structure BuddyRequestUpdate where
  activity : Option String := none
  description : Option String := none
  start_time : Option Int := none
  end_time : Option Int := none
  location : Option String := none
  latitude : Option Int := none
  longitude : Option Int := none
  vibe_level : Option VibeLevel := none
  custom_vibe_level : Option String := none
  max_participants : Option Nat := none
  requires_approval : Option Bool := none
  status : Option BuddyRequestStatus := none
deriving DecidableEq, Repr

/-- Seconds in `timedelta(weeks=1)`. -/
def one_week_secs : Int := 7 * 86400

/-- Pydantic validation of `BuddyRequestCreate`: per-field `Field` constraints
and the four `field_validator`s, in field-declaration order.  A failing check
surfaces the first error (pydantic collects all of them, but every verified
property only distinguishes success from failure). -/
def buddyRequestCreate_validate (now : Int) (r : BuddyRequestCreate) :
    Except String BuddyRequestCreate :=
  if (r.custom_category.getD "").length > 50 then
    .error "custom_category too long"
  else if r.category = BuddyCategory.CUSTOM ∧ (r.custom_category = none ∨ r.custom_category = some "") then
    .error "custom_category required when category is custom"
  else if r.activity.length < 3 ∨ 200 < r.activity.length then
    .error "activity length out of range"
  else if 1000 < (r.description.getD "").length then
    .error "description too long"
  else if r.start_time < now - 30 then
    .error "start_time must be in the future"
  else if r.end_time.any (fun e => decide (e ≤ r.start_time)) then
    .error "end_time must be after start_time"
  else if r.location.length < 2 ∨ 200 < r.location.length then
    .error "location length out of range"
  else if r.latitude.any (fun v => decide (v < -90 ∨ 90 < v)) then
    .error "latitude out of range"
  else if r.longitude.any (fun v => decide (v < -180 ∨ 180 < v)) then
    .error "longitude out of range"
  else if (r.custom_vibe_level.getD "").length > 50 then
    .error "custom_vibe_level too long"
  else if r.vibe_level = VibeLevel.CUSTOM ∧ (r.custom_vibe_level = none ∨ r.custom_vibe_level = some "") then
    .error "custom_vibe_level required when vibe_level is custom"
  else if r.max_participants < 1 ∨ 100 < r.max_participants then
    .error "max_participants out of range"
  else
    .ok r

/-- `POST /quests` (`create_quest` in `app/api/routes/buddy.py`): validate the
payload, default `end_time` to `start_time + timedelta(weeks=1)` when absent,
and insert a row with `current_participants = 1` (host counts as 1) and the
column defaults (`status = OPEN`).  `fresh_id` stands for `uuid.uuid4()`. -/
def create_quest (now : Int) (fresh_id : Nat) (r : BuddyRequestCreate) (user_id : Nat) :
    Except String BuddyRequest :=
  match buddyRequestCreate_validate now r with
  | .error e => .error e
  | .ok r =>
      let end_time : Option Int :=
        match r.end_time with
        | none => some (r.start_time + one_week_secs)
        | some e => some e
      .ok
        { id := fresh_id
          user_id := user_id
          category := r.category
          custom_category := r.custom_category
          activity := r.activity
          description := r.description
          vibe_level := r.vibe_level
          custom_vibe_level := r.custom_vibe_level
          start_time := r.start_time
          end_time := end_time
          location := r.location
          latitude := r.latitude
          longitude := r.longitude
          max_participants := r.max_participants
          requires_approval := r.requires_approval
          current_participants := 1
          status := BuddyRequestStatus.OPEN
          created_at := now
          updated_at := now }

/-- Mutate the first list element satisfying `p` (the single ORM object
returned by `scalar_one_or_none` and then mutated in place). -/
def update_first (p : α → Bool) (f : α → α) : List α → List α
  | [] => []
  | x :: xs => if p x then f x :: xs else x :: update_first p f xs

/-- Delete the first list element satisfying `p` (`db.delete` on the object
returned by `scalar_one_or_none`). -/
def delete_first (p : α → Bool) : List α → List α
  | [] => []
  | x :: xs => if p x then xs else x :: delete_first p xs

/-- One quest together with its participant rows: the slice of the store that
the per-quest handlers read and write. -/
structure QuestState where
  quest : BuddyRequest
  participants : List BuddyParticipant
deriving DecidableEq, Repr

/-- Row predicate of the participant lookups keyed by user
(`BuddyParticipant.buddy_request_id == quest.id, BuddyParticipant.user_id == user.id`). -/
def by_user (quest_id uid : Nat) (p : BuddyParticipant) : Bool :=
  p.buddy_request_id == quest_id && p.user_id == uid

/-- Row predicate of the participant lookup keyed by participant id in
`manage_participant`. -/
def by_pid (quest_id pid : Nat) (p : BuddyParticipant) : Bool :=
  p.id == pid && p.buddy_request_id == quest_id

/-- Participant lookup for (this quest, given user), as issued by
`join_quest` / `leave_quest` / `remove_participant`. -/
def find_by_user (s : QuestState) (uid : Nat) : Option BuddyParticipant :=
  s.participants.find? (by_user s.quest.id uid)

/-- Shared translation of the increment-and-flip block that appears three
times in `app/api/routes/buddy.py` (join twice, accept once):
`quest.current_participants += 1` followed by
`if quest.current_participants >= quest.max_participants: quest.status = FULL`. -/
def bump_and_fill (quest : BuddyRequest) : BuddyRequest :=
  let q := { quest with current_participants := quest.current_participants + 1 }
  if q.max_participants ≤ q.current_participants then
    { q with status := BuddyRequestStatus.FULL }
  else q

/-- Shared translation of the decrement-and-reopen block in `leave_quest` and
`remove_participant`:
`quest.current_participants = max(1, quest.current_participants - 1)` followed
by `if quest.status == FULL: quest.status = OPEN`. -/
def drop_and_reopen (quest : BuddyRequest) : BuddyRequest :=
  let q := { quest with current_participants := max 1 (quest.current_participants - 1) }
  if q.status = BuddyRequestStatus.FULL then
    { q with status := BuddyRequestStatus.OPEN }
  else q

/-- `POST /quests/quest_id/join` (`join_quest` in `app/api/routes/buddy.py`),
for an existing quest.  `uid` is the resolved `VerifiedUser`, `fresh_id`
stands for `uuid.uuid4()`, `message` is the parsed `JoinRequestCreate`
payload.  Returns the updated state and the participant row the endpoint
responds with. -/
def join_quest (s : QuestState) (uid fresh_id : Nat) (message : Option String) :
    Except HTTPException (QuestState × BuddyParticipant) :=
  let quest := s.quest
  if quest.status ≠ BuddyRequestStatus.OPEN then
    .error ⟨400, "Quest is not open"⟩
  else if quest.user_id = uid then
    .error ⟨400, "Cannot join your own quest"⟩
  else
    match find_by_user s uid with
    | some existing_participant =>
        if existing_participant.status = ParticipantStatus.CANCELLED then
          if quest.max_participants ≤ quest.current_participants then
            .error ⟨400, "Quest is full"⟩
          else
            let new_status :=
              if quest.requires_approval then ParticipantStatus.PENDING
              else ParticipantStatus.ACCEPTED
            let participants :=
              update_first (by_user quest.id uid)
                (fun p => { p with status := new_status, message := message })
                s.participants
            let quest :=
              if quest.requires_approval then quest else bump_and_fill quest
            .ok (⟨quest, participants⟩,
              { existing_participant with status := new_status, message := message })
        else
          .error ⟨400, "Already requested to join"⟩
    | none =>
        if quest.max_participants ≤ quest.current_participants then
          .error ⟨400, "Quest is full"⟩
        else
          let initial_status :=
            if quest.requires_approval then ParticipantStatus.PENDING
            else ParticipantStatus.ACCEPTED
          let participant : BuddyParticipant :=
            { id := fresh_id
              buddy_request_id := quest.id
              user_id := uid
              status := initial_status
              message := message }
          let quest :=
            if quest.requires_approval then quest else bump_and_fill quest
          .ok (⟨quest, s.participants ++ [participant]⟩, participant)

/-- `POST /quests/quest_id/participants/participant_id` (`manage_participant`
in `app/api/routes/buddy.py`), for an existing quest.  `action` is the parsed
`ParticipantAction` payload (pattern `accept|reject`). -/
def manage_participant (s : QuestState) (participant_id caller : Nat) (action : String) :
    Except HTTPException (QuestState × BuddyParticipant) :=
  let quest := s.quest
  if quest.user_id ≠ caller then
    .error ⟨403, "Not authorized"⟩
  else
    match s.participants.find? (by_pid quest.id participant_id) with
    | none => .error ⟨404, "Participant not found"⟩
    | some participant =>
        if participant.status ≠ ParticipantStatus.PENDING then
          .error ⟨400, "Participant already processed"⟩
        else if action = "accept" then
          if quest.max_participants ≤ quest.current_participants then
            .error ⟨400, "Quest is full"⟩
          else
            let participants :=
              update_first (by_pid quest.id participant_id)
                (fun p => { p with status := ParticipantStatus.ACCEPTED })
                s.participants
            .ok (⟨bump_and_fill quest, participants⟩,
              { participant with status := ParticipantStatus.ACCEPTED })
        else
          .ok (⟨quest,
              update_first (by_pid quest.id participant_id)
                (fun p => { p with status := ParticipantStatus.REJECTED })
                s.participants⟩,
            { participant with status := ParticipantStatus.REJECTED })

/-- `DELETE /quests/quest_id/leave` (`leave_quest` in
`app/api/routes/buddy.py`), for an existing quest.  The handler looks the
participant row up by (quest, user) with no status filter, 404s when there is
none, decrements the counter (floor 1) and reopens a full quest only when the
row was `accepted`, and finally sets the row's status to `cancelled`
unconditionally. -/
def leave_quest (s : QuestState) (uid : Nat) : Except HTTPException QuestState :=
  match find_by_user s uid with
  | none => .error ⟨404, "Not a participant"⟩
  | some participant =>
      let quest :=
        if participant.status = ParticipantStatus.ACCEPTED then drop_and_reopen s.quest
        else s.quest
      .ok ⟨quest,
        update_first (by_user s.quest.id uid)
          (fun p => { p with status := ParticipantStatus.CANCELLED })
          s.participants⟩

/-- `DELETE /quests/quest_id/participants/user_id` (`remove_participant` in
`app/api/routes/buddy.py`), for an existing quest: host-only hard delete of
the row, with the same decrement-and-reopen logic as leave when the row was
`accepted`. -/
def remove_participant (s : QuestState) (target_user_id caller : Nat) :
    Except HTTPException QuestState :=
  if s.quest.user_id ≠ caller then
    .error ⟨403, "Not authorized"⟩
  else
    match s.participants.find? (by_user s.quest.id target_user_id) with
    | none => .error ⟨404, "Participant not found"⟩
    | some participant =>
        let quest :=
          if participant.status = ParticipantStatus.ACCEPTED then drop_and_reopen s.quest
          else s.quest
        .ok ⟨quest, delete_first (by_user s.quest.id target_user_id) s.participants⟩

/-- Field application of `PATCH /quests/quest_id` (`update_quest` in
`app/api/routes/buddy.py`): every supplied field is written unconditionally,
in the order of the handler's `if request.field is not None` chain; there is
no cross-field or state-machine validation. -/
def apply_update (quest : BuddyRequest) (r : BuddyRequestUpdate) : BuddyRequest :=
  let quest := match r.activity with | some v => { quest with activity := v } | none => quest
  let quest := match r.description with | some v => { quest with description := some v } | none => quest
  let quest := match r.start_time with | some v => { quest with start_time := v } | none => quest
  let quest := match r.end_time with | some v => { quest with end_time := some v } | none => quest
  let quest := match r.location with | some v => { quest with location := v } | none => quest
  let quest := match r.latitude with | some v => { quest with latitude := some v } | none => quest
  let quest := match r.longitude with | some v => { quest with longitude := some v } | none => quest
  let quest := match r.vibe_level with | some v => { quest with vibe_level := v } | none => quest
  let quest := match r.max_participants with | some v => { quest with max_participants := v } | none => quest
  let quest := match r.requires_approval with | some v => { quest with requires_approval := v } | none => quest
  match r.status with | some v => { quest with status := v } | none => quest

/-- `PATCH /quests/quest_id` (`update_quest` in `app/api/routes/buddy.py`),
for an existing quest: host check, then unconditional field application. -/
def update_quest (quest : BuddyRequest) (r : BuddyRequestUpdate) (caller : Nat) :
    Except HTTPException BuddyRequest :=
  if quest.user_id ≠ caller then .error ⟨403, "Not authorized"⟩
  else .ok (apply_update quest r)

/-- Statuses matched by `BuddyRequest.status.in_([OPEN, IN_PROGRESS, FULL])`
in `expire_past_quests`. -/
def is_expirable_status (st : BuddyRequestStatus) : Bool :=
  match st with
  | .OPEN => true
  | .IN_PROGRESS => true
  | .FULL => true
  | _ => false

/-- Statuses matched by
`BuddyRequest.status.in_([COMPLETED, CANCELLED])` in the purge queries. -/
def is_terminal_status (st : BuddyRequestStatus) : Bool :=
  match st with
  | .COMPLETED => true
  | .CANCELLED => true
  | _ => false

/-- Row condition of the bulk `update` in `expire_past_quests`
(`app/services/quest_cleanup.py`): non-terminal status and
`end_time <= now` (a SQL comparison against NULL matches nothing, hence
`Option.any`). -/
def expire_cond (now : Int) (q : BuddyRequest) : Bool :=
  is_expirable_status q.status && q.end_time.any (fun e => decide (e ≤ now))

/-- `expire_past_quests` (`app/services/quest_cleanup.py`): one bulk update
setting `status = COMPLETED` on every row matching `expire_cond`; returns the
updated store and the number of affected rows (`.returning(id)`). -/
def expire_past_quests (now : Int) (qs : List BuddyRequest) :
    List BuddyRequest × Nat :=
  (qs.map fun q =>
      if expire_cond now q then { q with status := BuddyRequestStatus.COMPLETED } else q,
    (qs.filter (expire_cond now)).length)

/-- Row condition of the bulk `delete` in `delete_old_quests`
(`app/services/quest_cleanup.py`): terminal status and
`updated_at <= now - timedelta(days=days_after_completion)`. -/
def purge_cond (now days_after_completion : Int) (q : BuddyRequest) : Bool :=
  is_terminal_status q.status && decide (q.updated_at ≤ now - days_after_completion * 86400)

/-- `delete_old_quests` (`app/services/quest_cleanup.py`): one bulk delete of
every row matching `purge_cond` (participants go with their quest via the
`ondelete=CASCADE` foreign key); returns the remaining store and the number of
deleted rows. -/
def delete_old_quests (now : Int) (qs : List BuddyRequest) (days_after_completion : Int := 7) :
    List BuddyRequest × Nat :=
  (qs.filter fun q => ! purge_cond now days_after_completion q,
    (qs.filter (purge_cond now days_after_completion)).length)

/-- `cleanup_quests` (`app/services/quest_cleanup.py`): expire, then purge
with the 7-day grace period; returns the final store with both counts. -/
def cleanup_quests (now : Int) (qs : List BuddyRequest) :
    List BuddyRequest × Nat × Nat :=
  let expired := expire_past_quests now qs
  let deleted := delete_old_quests now expired.1 7
  (deleted.1, expired.2, deleted.2)

/-- One participant-machine operation on a quest, with its request data:
the operations named by the capacity invariant (join, accept/reject via
`manage_participant`, leave, remove). -/
inductive QuestOp where
  | join (uid fresh_id : Nat) (message : Option String)
  | manage (participant_id caller : Nat) (action : String)
  | leave (uid : Nat)
  | remove (target_user_id caller : Nat)
deriving DecidableEq, Repr

/-- Run one operation against the store slice; a failed operation raises an
`HTTPException` before `db.commit()` and leaves the store unchanged. -/
def apply_op (s : QuestState) : QuestOp → QuestState
  | .join uid fresh_id message =>
      match join_quest s uid fresh_id message with
      | .ok (s2, _) => s2
      | .error _ => s
  | .manage participant_id caller action =>
      match manage_participant s participant_id caller action with
      | .ok (s2, _) => s2
      | .error _ => s
  | .leave uid =>
      match leave_quest s uid with
      | .ok s2 => s2
      | .error _ => s
  | .remove target caller =>
      match remove_participant s target caller with
      | .ok s2 => s2
      | .error _ => s

/-- Run a sequence of operations. -/
def apply_ops (s : QuestState) (ops : List QuestOp) : QuestState :=
  ops.foldl apply_op s

/-- Number of `accepted` participant rows of a quest. -/
def countAccepted (l : List BuddyParticipant) : Nat :=
  l.countP fun p => decide (p.status = ParticipantStatus.ACCEPTED)

theorem countAccepted_nil : countAccepted [] = 0 := rfl

/-- Counting after mutating the row that `find?` returns: the count changes
exactly by the contribution of that row. -/
theorem countP_update_first (p q : α → Bool) (f : α → α) :
    ∀ (l : List α) (x : α), l.find? p = some x →
      (update_first p f l).countP q + (if q x then 1 else 0)
        = l.countP q + (if q (f x) then 1 else 0) := by
  intro l
  induction l with
  | nil => intro x hx; simp at hx
  | cons a l ih =>
      intro x hx
      by_cases hpa : p a
      · rw [List.find?_cons_of_pos _ hpa] at hx
        cases hx
        simp only [update_first, if_pos hpa, List.countP_cons]
        by_cases hqa : q a <;> by_cases hqf : q (f a) <;> simp [hqa, hqf]
      · rw [List.find?_cons_of_neg _ hpa] at hx
        simp only [update_first, if_neg hpa, List.countP_cons]
        have := ih x hx
        omega

/-- Counting after deleting the row that `find?` returns. -/
theorem countP_delete_first (p q : α → Bool) :
    ∀ (l : List α) (x : α), l.find? p = some x →
      (delete_first p l).countP q + (if q x then 1 else 0) = l.countP q := by
  intro l
  induction l with
  | nil => intro x hx; simp at hx
  | cons a l ih =>
      intro x hx
      by_cases hpa : p a
      · rw [List.find?_cons_of_pos _ hpa] at hx
        cases hx
        simp only [delete_first, if_pos hpa, List.countP_cons]
      · rw [List.find?_cons_of_neg _ hpa] at hx
        simp only [delete_first, if_neg hpa, List.countP_cons]
        have := ih x hx
        omega

/-- Looking the mutated row up again after `update_first`, when the mutation
preserves the key the lookup filters on. -/
theorem find?_update_first (p : α → Bool) (f : α → α)
    (hf : ∀ a, p a = true → p (f a) = true) :
    ∀ (l : List α) (x : α), l.find? p = some x →
      (update_first p f l).find? p = some (f x) := by
  intro l
  induction l with
  | nil => intro x hx; simp at hx
  | cons a l ih =>
      intro x hx
      by_cases hpa : p a
      · rw [List.find?_cons_of_pos _ hpa] at hx
        cases hx
        simp only [update_first, if_pos hpa]
        exact List.find?_cons_of_pos _ (hf _ hpa)
      · rw [List.find?_cons_of_neg _ hpa] at hx
        simp only [update_first, if_neg hpa]
        rw [List.find?_cons_of_neg _ hpa]
        exact ih x hx

theorem bump_and_fill_spec (q : BuddyRequest) :
    (bump_and_fill q).current_participants = q.current_participants + 1 ∧
    (bump_and_fill q).max_participants = q.max_participants ∧
    (bump_and_fill q).id = q.id ∧
    (bump_and_fill q).user_id = q.user_id ∧
    (bump_and_fill q).status =
      (if q.max_participants ≤ q.current_participants + 1 then BuddyRequestStatus.FULL
        else q.status) := by
  unfold bump_and_fill
  by_cases h : q.max_participants ≤ q.current_participants + 1 <;> simp [h]

theorem drop_and_reopen_spec (q : BuddyRequest) :
    (drop_and_reopen q).current_participants = max 1 (q.current_participants - 1) ∧
    (drop_and_reopen q).max_participants = q.max_participants ∧
    (drop_and_reopen q).id = q.id ∧
    (drop_and_reopen q).user_id = q.user_id ∧
    (drop_and_reopen q).status =
      (if q.status = BuddyRequestStatus.FULL then BuddyRequestStatus.OPEN else q.status) := by
  unfold drop_and_reopen
  by_cases h : q.status = BuddyRequestStatus.FULL <;> simp [h]

/-- What a successful join does to the quest: either nothing (new pending
request) or, when the capacity check passed, one increment together with the
flip to `FULL` at capacity; the accepted-row count moves with the counter. -/
theorem join_quest_ok_cases {s : QuestState} {uid fresh_id : Nat} {message : Option String}
    {res : QuestState × BuddyParticipant}
    (h : join_quest s uid fresh_id message = .ok res) :
    s.quest.status = BuddyRequestStatus.OPEN ∧
    res.1.quest.max_participants = s.quest.max_participants ∧
    res.1.quest.id = s.quest.id ∧
    res.1.quest.user_id = s.quest.user_id ∧
    ((res.1.quest = s.quest ∧ countAccepted res.1.participants = countAccepted s.participants) ∨
      (s.quest.current_participants < s.quest.max_participants ∧
        res.1.quest.current_participants = s.quest.current_participants + 1 ∧
        countAccepted res.1.participants = countAccepted s.participants + 1 ∧
        res.1.quest.status =
          (if s.quest.max_participants ≤ s.quest.current_participants + 1
            then BuddyRequestStatus.FULL else s.quest.status))) := by
  unfold join_quest at h
  by_cases hopen : s.quest.status = BuddyRequestStatus.OPEN
  case neg => simp [hopen] at h
  by_cases hhost : s.quest.user_id = uid
  case pos => simp [hopen, hhost] at h
  cases hfind : find_by_user s uid with
  | some x =>
      by_cases hcanc : x.status = ParticipantStatus.CANCELLED
      case neg => simp [hopen, hhost, hfind, hcanc] at h
      by_cases hcap : s.quest.max_participants ≤ s.quest.current_participants
      case pos => simp [hopen, hhost, hfind, hcanc, hcap] at h
      by_cases happ : s.quest.requires_approval = true
      · simp only [hopen, hhost, hfind, hcanc, hcap, happ] at h
        simp at h
        subst h
        refine ⟨hopen, rfl, rfl, rfl, Or.inl ⟨rfl, ?_⟩⟩
        have hcount := countP_update_first (by_user s.quest.id uid)
          (fun p => decide (p.status = ParticipantStatus.ACCEPTED))
          (fun p => { p with status := ParticipantStatus.PENDING, message := message })
          s.participants x hfind
        simp only [countAccepted]
        simp [hcanc] at hcount
        omega
      · simp only [hopen, hhost, hfind, hcanc, hcap, happ] at h
        simp [happ] at h
        subst h
        obtain ⟨hb1, hb2, hb3, hb4, hb5⟩ := bump_and_fill_spec s.quest
        refine ⟨hopen, hb2, hb3, hb4, Or.inr ⟨Nat.lt_of_not_le hcap, hb1, ?_, hb5⟩⟩
        have hcount := countP_update_first (by_user s.quest.id uid)
          (fun p => decide (p.status = ParticipantStatus.ACCEPTED))
          (fun p => { p with status := ParticipantStatus.ACCEPTED, message := message })
          s.participants x hfind
        simp only [countAccepted]
        simp [hcanc] at hcount
        omega
  | none =>
      by_cases hcap : s.quest.max_participants ≤ s.quest.current_participants
      case pos => simp [hopen, hhost, hfind, hcap] at h
      by_cases happ : s.quest.requires_approval = true
      · simp [hopen, hhost, hfind, hcap, happ] at h
        subst h
        refine ⟨hopen, rfl, rfl, rfl, Or.inl ⟨rfl, ?_⟩⟩
        simp [countAccepted, List.countP_append, List.countP_cons]
      · simp [hopen, hhost, hfind, hcap, happ] at h
        subst h
        obtain ⟨hb1, hb2, hb3, hb4, hb5⟩ := bump_and_fill_spec s.quest
        refine ⟨hopen, hb2, hb3, hb4, Or.inr ⟨Nat.lt_of_not_le hcap, hb1, ?_, hb5⟩⟩
        simp [countAccepted, List.countP_append, List.countP_cons]

/-- What a successful accept/reject does to the quest: reject changes
nothing on the quest, accept increments behind the capacity check and flips
to `FULL` at capacity; the accepted-row count moves with the counter. -/
theorem manage_participant_ok_cases {s : QuestState} {pid caller : Nat} {action : String}
    {res : QuestState × BuddyParticipant}
    (h : manage_participant s pid caller action = .ok res) :
    res.1.quest.max_participants = s.quest.max_participants ∧
    res.1.quest.id = s.quest.id ∧
    res.1.quest.user_id = s.quest.user_id ∧
    ((res.1.quest = s.quest ∧ countAccepted res.1.participants = countAccepted s.participants) ∨
      (s.quest.current_participants < s.quest.max_participants ∧
        res.1.quest.current_participants = s.quest.current_participants + 1 ∧
        countAccepted res.1.participants = countAccepted s.participants + 1 ∧
        res.1.quest.status =
          (if s.quest.max_participants ≤ s.quest.current_participants + 1
            then BuddyRequestStatus.FULL else s.quest.status))) := by
  unfold manage_participant at h
  by_cases hauth : s.quest.user_id = caller
  case neg => simp [hauth] at h
  cases hfind : s.participants.find? (by_pid s.quest.id pid) with
  | none => simp [hauth, hfind] at h
  | some x =>
      by_cases hpend : x.status = ParticipantStatus.PENDING
      case neg => simp [hauth, hfind, hpend] at h
      by_cases hact : action = "accept"
      · by_cases hcap : s.quest.max_participants ≤ s.quest.current_participants
        case pos => simp [hauth, hfind, hpend, hact, hcap] at h
        simp [hauth, hfind, hpend, hact, hcap] at h
        subst h
        obtain ⟨hb1, hb2, hb3, hb4, hb5⟩ := bump_and_fill_spec s.quest
        refine ⟨hb2, hb3, hb4, Or.inr ⟨Nat.lt_of_not_le hcap, hb1, ?_, hb5⟩⟩
        have hcount := countP_update_first (by_pid s.quest.id pid)
          (fun p => decide (p.status = ParticipantStatus.ACCEPTED))
          (fun p => { p with status := ParticipantStatus.ACCEPTED })
          s.participants x hfind
        simp only [countAccepted]
        simp [hpend] at hcount
        omega
      · simp [hauth, hfind, hpend, hact] at h
        subst h
        refine ⟨rfl, rfl, rfl, Or.inl ⟨rfl, ?_⟩⟩
        have hcount := countP_update_first (by_pid s.quest.id pid)
          (fun p => decide (p.status = ParticipantStatus.ACCEPTED))
          (fun p => { p with status := ParticipantStatus.REJECTED })
          s.participants x hfind
        simp only [countAccepted]
        simp [hpend] at hcount
        omega

/-- What a successful leave does to the quest: nothing when the leaver was
not `accepted`; otherwise one floored decrement with the `FULL`-to-`OPEN`
reversion, and one fewer accepted row. -/
theorem leave_quest_ok_cases {s : QuestState} {uid : Nat} {s2 : QuestState}
    (h : leave_quest s uid = .ok s2) :
    s2.quest.max_participants = s.quest.max_participants ∧
    s2.quest.id = s.quest.id ∧
    s2.quest.user_id = s.quest.user_id ∧
    ((s2.quest = s.quest ∧ countAccepted s2.participants = countAccepted s.participants) ∨
      (1 ≤ countAccepted s.participants ∧
        countAccepted s2.participants + 1 = countAccepted s.participants ∧
        s2.quest.current_participants = max 1 (s.quest.current_participants - 1) ∧
        s2.quest.status = (if s.quest.status = BuddyRequestStatus.FULL
          then BuddyRequestStatus.OPEN else s.quest.status))) := by
  unfold leave_quest at h
  cases hfind : find_by_user s uid with
  | none => simp [hfind] at h
  | some x =>
      have hcount := countP_update_first (by_user s.quest.id uid)
        (fun p => decide (p.status = ParticipantStatus.ACCEPTED))
        (fun p => { p with status := ParticipantStatus.CANCELLED })
        s.participants x hfind
      by_cases hacc : x.status = ParticipantStatus.ACCEPTED
      · simp [hfind, hacc] at h
        subst h
        obtain ⟨hd1, hd2, hd3, hd4, hd5⟩ := drop_and_reopen_spec s.quest
        simp [hacc] at hcount
        refine ⟨hd2, hd3, hd4, Or.inr ⟨?_, ?_, hd1, hd5⟩⟩
        · simp only [countAccepted]
          omega
        · simp only [countAccepted]
          omega
      · simp [hfind, hacc] at h
        subst h
        simp [hacc] at hcount
        refine ⟨rfl, rfl, rfl, Or.inl ⟨rfl, ?_⟩⟩
        simp only [countAccepted]
        omega

/-- What a successful host-removal does to the quest: same counter effect as
leave, with the row hard-deleted instead of cancelled. -/
theorem remove_participant_ok_cases {s : QuestState} {target caller : Nat} {s2 : QuestState}
    (h : remove_participant s target caller = .ok s2) :
    s2.quest.max_participants = s.quest.max_participants ∧
    s2.quest.id = s.quest.id ∧
    s2.quest.user_id = s.quest.user_id ∧
    ((s2.quest = s.quest ∧ countAccepted s2.participants = countAccepted s.participants) ∨
      (1 ≤ countAccepted s.participants ∧
        countAccepted s2.participants + 1 = countAccepted s.participants ∧
        s2.quest.current_participants = max 1 (s.quest.current_participants - 1) ∧
        s2.quest.status = (if s.quest.status = BuddyRequestStatus.FULL
          then BuddyRequestStatus.OPEN else s.quest.status))) := by
  unfold remove_participant at h
  by_cases hauth : s.quest.user_id = caller
  case neg => simp [hauth] at h
  cases hfind : s.participants.find? (by_user s.quest.id target) with
  | none => simp [hauth, hfind] at h
  | some x =>
      have hcount := countP_delete_first (by_user s.quest.id target)
        (fun p => decide (p.status = ParticipantStatus.ACCEPTED))
        s.participants x hfind
      by_cases hacc : x.status = ParticipantStatus.ACCEPTED
      · simp [hauth, hfind, hacc] at h
        subst h
        obtain ⟨hd1, hd2, hd3, hd4, hd5⟩ := drop_and_reopen_spec s.quest
        simp [hacc] at hcount
        refine ⟨hd2, hd3, hd4, Or.inr ⟨?_, ?_, hd1, hd5⟩⟩
        · simp only [countAccepted]
          omega
        · simp only [countAccepted]
          omega
      · simp [hauth, hfind, hacc] at h
        subst h
        simp [hacc] at hcount
        refine ⟨rfl, rfl, rfl, Or.inl ⟨rfl, ?_⟩⟩
        simp only [countAccepted]
        omega

/-- Capacity bookkeeping invariant of a quest's store slice: the counter
equals host plus accepted rows, never exceeds the cap, and — outside the
terminal statuses — `FULL` marks exactly the at-capacity states. -/
def CapacityInv (s : QuestState) : Prop :=
  s.quest.current_participants = 1 + countAccepted s.participants ∧
  s.quest.current_participants ≤ s.quest.max_participants ∧
  (s.quest.status ≠ BuddyRequestStatus.COMPLETED →
    s.quest.status ≠ BuddyRequestStatus.CANCELLED →
    (s.quest.status = BuddyRequestStatus.FULL ↔
      s.quest.current_participants = s.quest.max_participants))

theorem capacityInv_of_same {s s2 : QuestState}
    (hq : s2.quest = s.quest)
    (hcnt : countAccepted s2.participants = countAccepted s.participants)
    (h : CapacityInv s) : CapacityInv s2 := by
  obtain ⟨hc, hle, hiff⟩ := h
  exact ⟨by rw [hq, hcnt]; exact hc, by rw [hq]; exact hle, by rw [hq]; exact hiff⟩

theorem capacityInv_of_bump {s s2 : QuestState}
    (hmax : s2.quest.max_participants = s.quest.max_participants)
    (hlt : s.quest.current_participants < s.quest.max_participants)
    (hcur : s2.quest.current_participants = s.quest.current_participants + 1)
    (hcnt : countAccepted s2.participants = countAccepted s.participants + 1)
    (hst : s2.quest.status =
      (if s.quest.max_participants ≤ s.quest.current_participants + 1
        then BuddyRequestStatus.FULL else s.quest.status))
    (h : CapacityInv s) : CapacityInv s2 := by
  obtain ⟨hc, hle, hiff⟩ := h
  refine ⟨by omega, by omega, ?_⟩
  by_cases hfull : s.quest.max_participants ≤ s.quest.current_participants + 1
  · rw [hst, if_pos hfull]
    intro _ _
    constructor
    · intro _
      omega
    · intro _
      rfl
  · rw [hst, if_neg hfull]
    intro h1 h2
    have hpre := hiff h1 h2
    constructor
    · intro hF
      have h3 := hpre.mp hF
      omega
    · intro hEq
      exact absurd hEq (by omega)

theorem capacityInv_of_drop {s s2 : QuestState}
    (hmax : s2.quest.max_participants = s.quest.max_participants)
    (ha : 1 ≤ countAccepted s.participants)
    (hcnt : countAccepted s2.participants + 1 = countAccepted s.participants)
    (hcur : s2.quest.current_participants = max 1 (s.quest.current_participants - 1))
    (hst : s2.quest.status = (if s.quest.status = BuddyRequestStatus.FULL
      then BuddyRequestStatus.OPEN else s.quest.status))
    (h : CapacityInv s) : CapacityInv s2 := by
  obtain ⟨hc, hle, hiff⟩ := h
  refine ⟨by omega, by omega, ?_⟩
  by_cases hF : s.quest.status = BuddyRequestStatus.FULL
  · rw [hst, if_pos hF]
    intro _ _
    have hpre := (hiff (by rw [hF]; decide) (by rw [hF]; decide)).mp hF
    constructor
    · intro hx
      exact absurd hx (by decide)
    · intro hEq
      exact absurd hEq (by omega)
  · rw [hst, if_neg hF]
    intro h1 h2
    have hpre := hiff h1 h2
    constructor
    · intro hx
      exact absurd hx hF
    · intro hEq
      have hne : s.quest.current_participants ≠ s.quest.max_participants :=
        fun hEq2 => hF (hpre.mpr hEq2)
      exact absurd hEq (by omega)

/-- Every participant-machine operation — including every failing one —
preserves the capacity bookkeeping invariant. -/
theorem apply_op_capacityInv {s : QuestState} (op : QuestOp) (h : CapacityInv s) :
    CapacityInv (apply_op s op) := by
  cases op with
  | join uid fid msg =>
      cases hj : join_quest s uid fid msg with
      | error e => simpa [apply_op, hj] using h
      | ok res =>
          obtain ⟨s2, pr⟩ := res
          have hred : apply_op s (QuestOp.join uid fid msg) = s2 := by
            simp [apply_op, hj]
          rw [hred]
          obtain ⟨-, hmax, -, -, hcase⟩ := join_quest_ok_cases hj
          rcases hcase with ⟨hq, hcnt⟩ | ⟨hlt, hcur, hcnt, hst⟩
          · exact capacityInv_of_same hq hcnt h
          · exact capacityInv_of_bump hmax hlt hcur hcnt hst h
  | manage pid caller action =>
      cases hm : manage_participant s pid caller action with
      | error e => simpa [apply_op, hm] using h
      | ok res =>
          obtain ⟨s2, pr⟩ := res
          have hred : apply_op s (QuestOp.manage pid caller action) = s2 := by
            simp [apply_op, hm]
          rw [hred]
          obtain ⟨hmax, -, -, hcase⟩ := manage_participant_ok_cases hm
          rcases hcase with ⟨hq, hcnt⟩ | ⟨hlt, hcur, hcnt, hst⟩
          · exact capacityInv_of_same hq hcnt h
          · exact capacityInv_of_bump hmax hlt hcur hcnt hst h
  | leave uid =>
      cases hl : leave_quest s uid with
      | error e => simpa [apply_op, hl] using h
      | ok s2 =>
          have hred : apply_op s (QuestOp.leave uid) = s2 := by
            simp [apply_op, hl]
          rw [hred]
          obtain ⟨hmax, -, -, hcase⟩ := leave_quest_ok_cases hl
          rcases hcase with ⟨hq, hcnt⟩ | ⟨ha, hcnt, hcur, hst⟩
          · exact capacityInv_of_same hq hcnt h
          · exact capacityInv_of_drop hmax ha hcnt hcur hst h
  | remove target caller =>
      cases hr : remove_participant s target caller with
      | error e => simpa [apply_op, hr] using h
      | ok s2 =>
          have hred : apply_op s (QuestOp.remove target caller) = s2 := by
            simp [apply_op, hr]
          rw [hred]
          obtain ⟨hmax, -, -, hcase⟩ := remove_participant_ok_cases hr
          rcases hcase with ⟨hq, hcnt⟩ | ⟨ha, hcnt, hcur, hst⟩
          · exact capacityInv_of_same hq hcnt h
          · exact capacityInv_of_drop hmax ha hcnt hcur hst h

theorem apply_ops_capacityInv (ops : List QuestOp) {s : QuestState} (h : CapacityInv s) :
    CapacityInv (apply_ops s ops) := by
  induction ops generalizing s with
  | nil => exact h
  | cons op ops ih => exact ih (apply_op_capacityInv op h)

/-- Every participant-machine operation keeps the counter within
`[1, max_participants]`. -/
theorem apply_op_bounds {s : QuestState} (op : QuestOp)
    (h1 : 1 ≤ s.quest.current_participants)
    (h2 : s.quest.current_participants ≤ s.quest.max_participants) :
    1 ≤ (apply_op s op).quest.current_participants ∧
    (apply_op s op).quest.current_participants ≤ (apply_op s op).quest.max_participants := by
  cases op with
  | join uid fid msg =>
      cases hj : join_quest s uid fid msg with
      | error e => simp only [apply_op, hj]; exact ⟨h1, h2⟩
      | ok res =>
          obtain ⟨s2, pr⟩ := res
          have hred : apply_op s (QuestOp.join uid fid msg) = s2 := by
            simp [apply_op, hj]
          rw [hred]
          obtain ⟨-, hmax, -, -, hcase⟩ := join_quest_ok_cases hj
          rcases hcase with ⟨hq, -⟩ | ⟨hlt, hcur, -, -⟩
          · rw [hq]; exact ⟨h1, h2⟩
          · have hmax2 : s2.quest.max_participants = s.quest.max_participants := hmax
            have hcur2 : s2.quest.current_participants = s.quest.current_participants + 1 := hcur
            omega
  | manage pid caller action =>
      cases hm : manage_participant s pid caller action with
      | error e => simp only [apply_op, hm]; exact ⟨h1, h2⟩
      | ok res =>
          obtain ⟨s2, pr⟩ := res
          have hred : apply_op s (QuestOp.manage pid caller action) = s2 := by
            simp [apply_op, hm]
          rw [hred]
          obtain ⟨hmax, -, -, hcase⟩ := manage_participant_ok_cases hm
          rcases hcase with ⟨hq, -⟩ | ⟨hlt, hcur, -, -⟩
          · rw [hq]; exact ⟨h1, h2⟩
          · have hmax2 : s2.quest.max_participants = s.quest.max_participants := hmax
            have hcur2 : s2.quest.current_participants = s.quest.current_participants + 1 := hcur
            omega
  | leave uid =>
      cases hl : leave_quest s uid with
      | error e => simp only [apply_op, hl]; exact ⟨h1, h2⟩
      | ok s2 =>
          have hred : apply_op s (QuestOp.leave uid) = s2 := by
            simp [apply_op, hl]
          rw [hred]
          obtain ⟨hmax, -, -, hcase⟩ := leave_quest_ok_cases hl
          rcases hcase with ⟨hq, -⟩ | ⟨-, -, hcur, -⟩
          · rw [hq]; exact ⟨h1, h2⟩
          · omega
  | remove target caller =>
      cases hr : remove_participant s target caller with
      | error e => simp only [apply_op, hr]; exact ⟨h1, h2⟩
      | ok s2 =>
          have hred : apply_op s (QuestOp.remove target caller) = s2 := by
            simp [apply_op, hr]
          rw [hred]
          obtain ⟨hmax, -, -, hcase⟩ := remove_participant_ok_cases hr
          rcases hcase with ⟨hq, -⟩ | ⟨-, -, hcur, -⟩
          · rw [hq]; exact ⟨h1, h2⟩
          · omega

theorem apply_ops_bounds (ops : List QuestOp) {s : QuestState}
    (h1 : 1 ≤ s.quest.current_participants)
    (h2 : s.quest.current_participants ≤ s.quest.max_participants) :
    1 ≤ (apply_ops s ops).quest.current_participants ∧
    (apply_ops s ops).quest.current_participants ≤ (apply_ops s ops).quest.max_participants := by
  induction ops generalizing s with
  | nil => exact ⟨h1, h2⟩
  | cons op ops ih =>
      obtain ⟨g1, g2⟩ := apply_op_bounds op h1 h2
      exact ih g1 g2

/-- Facts guaranteed by a passing `BuddyRequestCreate` validation: the
payload is returned unchanged, `start_time` is at most 30 seconds in the
past, a supplied `end_time` is strictly after `start_time`, and the cap is in
`[1, 100]`. -/
theorem validate_ok_facts {now : Int} {r r2 : BuddyRequestCreate}
    (h : buddyRequestCreate_validate now r = .ok r2) :
    r2 = r ∧ now - 30 ≤ r.start_time ∧
    (∀ e, r.end_time = some e → r.start_time < e) ∧
    1 ≤ r.max_participants ∧ r.max_participants ≤ 100 := by
  unfold buddyRequestCreate_validate at h
  by_cases c1 : (r.custom_category.getD "").length > 50
  · rw [if_pos c1] at h; exact Except.noConfusion h
  rw [if_neg c1] at h
  by_cases c2 : r.category = BuddyCategory.CUSTOM ∧ (r.custom_category = none ∨ r.custom_category = some "")
  · rw [if_pos c2] at h; exact Except.noConfusion h
  rw [if_neg c2] at h
  by_cases c3 : r.activity.length < 3 ∨ 200 < r.activity.length
  · rw [if_pos c3] at h; exact Except.noConfusion h
  rw [if_neg c3] at h
  by_cases c4 : 1000 < (r.description.getD "").length
  · rw [if_pos c4] at h; exact Except.noConfusion h
  rw [if_neg c4] at h
  by_cases c5 : r.start_time < now - 30
  · rw [if_pos c5] at h; exact Except.noConfusion h
  rw [if_neg c5] at h
  by_cases c6 : r.end_time.any (fun e => decide (e ≤ r.start_time)) = true
  · rw [if_pos c6] at h; exact Except.noConfusion h
  rw [if_neg c6] at h
  by_cases c7 : r.location.length < 2 ∨ 200 < r.location.length
  · rw [if_pos c7] at h; exact Except.noConfusion h
  rw [if_neg c7] at h
  by_cases c8 : r.latitude.any (fun v => decide (v < -90 ∨ 90 < v)) = true
  · rw [if_pos c8] at h; exact Except.noConfusion h
  rw [if_neg c8] at h
  by_cases c9 : r.longitude.any (fun v => decide (v < -180 ∨ 180 < v)) = true
  · rw [if_pos c9] at h; exact Except.noConfusion h
  rw [if_neg c9] at h
  by_cases c10 : (r.custom_vibe_level.getD "").length > 50
  · rw [if_pos c10] at h; exact Except.noConfusion h
  rw [if_neg c10] at h
  by_cases c11 : r.vibe_level = VibeLevel.CUSTOM ∧ (r.custom_vibe_level = none ∨ r.custom_vibe_level = some "")
  · rw [if_pos c11] at h; exact Except.noConfusion h
  rw [if_neg c11] at h
  by_cases c12 : r.max_participants < 1 ∨ 100 < r.max_participants
  · rw [if_pos c12] at h; exact Except.noConfusion h
  rw [if_neg c12] at h
  injection h with h
  refine ⟨h.symm, by omega, ?_, by omega, by omega⟩
  intro e he
  rw [he] at c6
  simp at c6
  omega

/-- Facts about every successfully created quest: the counter starts at 1,
the status is `open`, the cap came through validation, `end_time` is the
supplied value or the one-week default, and the validated timing bounds. -/
theorem create_quest_ok_spec {now : Int} {fresh_id : Nat} {r : BuddyRequestCreate}
    {user_id : Nat} {q : BuddyRequest}
    (h : create_quest now fresh_id r user_id = .ok q) :
    q.current_participants = 1 ∧
    q.status = BuddyRequestStatus.OPEN ∧
    1 ≤ q.max_participants ∧
    q.max_participants = r.max_participants ∧
    q.start_time = r.start_time ∧
    q.end_time = (match r.end_time with
      | none => some (r.start_time + one_week_secs)
      | some e => some e) ∧
    now - 30 ≤ r.start_time ∧
    (∀ e, r.end_time = some e → r.start_time < e) := by
  unfold create_quest at h
  cases hv : buddyRequestCreate_validate now r with
  | error e => rw [hv] at h; exact Except.noConfusion h
  | ok r2 =>
      obtain ⟨hr2, hstart, hend, hmax1, hmax2⟩ := validate_ok_facts hv
      subst hr2
      rw [hv] at h
      simp only [Except.ok.injEq] at h
      subst h
      exact ⟨rfl, rfl, hmax1, rfl, rfl, rfl, hstart, hend⟩

/-- A row the expire sweep has just processed never matches the expire
condition again: an affected row is now `completed`, an unaffected row
already failed the condition. -/
theorem expire_cond_after (now : Int) (q : BuddyRequest) :
    expire_cond now
      (if expire_cond now q then { q with status := BuddyRequestStatus.COMPLETED } else q)
      = false := by
  cases hexp : expire_cond now q with
  | false => simp [hexp]
  | true => simp [expire_cond, is_expirable_status]

theorem expire_map_idem (now : Int) (qs : List BuddyRequest) :
    ((qs.map fun q =>
        if expire_cond now q then { q with status := BuddyRequestStatus.COMPLETED } else q).map
      fun q => if expire_cond now q then { q with status := BuddyRequestStatus.COMPLETED } else q)
      = qs.map fun q =>
          if expire_cond now q then { q with status := BuddyRequestStatus.COMPLETED } else q := by
  induction qs with
  | nil => rfl
  | cons q qs ih =>
      simp only [List.map_cons, ih, List.cons.injEq, and_true]
      simp [expire_cond_after now q]

theorem expire_filter_idem (now : Int) (qs : List BuddyRequest) :
    ((qs.map fun q =>
        if expire_cond now q then { q with status := BuddyRequestStatus.COMPLETED } else q).filter
      (expire_cond now)) = [] := by
  induction qs with
  | nil => rfl
  | cons q qs ih =>
      simp only [List.map_cons, List.filter_cons]
      simp [expire_cond_after now q, ih]

/-- C5: the Expire sweep is idempotent: for every store state and fixed
clock, running `expire_past_quests` on the result of a first run returns the
same store unchanged and reports 0 quests affected. -/
theorem expire_idempotent (now : Int) (qs : List BuddyRequest) :
    expire_past_quests now (expire_past_quests now qs).1 =
      ((expire_past_quests now qs).1, 0) := by
  unfold expire_past_quests
  simp only [Prod.mk.injEq]
  exact ⟨expire_map_idem now qs, by rw [expire_filter_idem now qs]; rfl⟩

/-- The purge row condition in terms of the quest's fields. -/
theorem purge_cond_iff (now days : Int) (q : BuddyRequest) :
    purge_cond now days q = true ↔
      ((q.status = BuddyRequestStatus.COMPLETED ∨ q.status = BuddyRequestStatus.CANCELLED) ∧
        q.updated_at ≤ now - days * 86400) := by
  unfold purge_cond is_terminal_status
  cases q.status <;> simp

/-- C6: the purge deletes exactly the quests that are `completed` or
`cancelled` with a last-updated timestamp at least 7 days old; a quest whose
status is `open`, `in_progress` or `full` survives regardless of age, and
surviving quests are carried over unchanged (the purge is a filter). -/
theorem purge_deletes_exactly (now : Int) (qs : List BuddyRequest) (q : BuddyRequest)
    (hq : q ∈ qs) :
    (q ∈ (delete_old_quests now qs 7).1 ↔
      ¬((q.status = BuddyRequestStatus.COMPLETED ∨ q.status = BuddyRequestStatus.CANCELLED) ∧
        q.updated_at ≤ now - 7 * 86400)) ∧
    ((q.status = BuddyRequestStatus.OPEN ∨ q.status = BuddyRequestStatus.IN_PROGRESS ∨
        q.status = BuddyRequestStatus.FULL) → q ∈ (delete_old_quests now qs 7).1) := by
  have hmem : q ∈ (delete_old_quests now qs 7).1 ↔ (q ∈ qs ∧ ¬purge_cond now 7 q = true) := by
    simp [delete_old_quests, List.mem_filter]
  constructor
  · rw [hmem]
    simp only [hq, true_and]
    rw [purge_cond_iff]
  · intro hst
    rw [hmem]
    refine ⟨hq, ?_⟩
    rw [purge_cond_iff]
    rcases hst with h | h | h <;> simp [h]

/-- Concrete store entry for the purge witness: a completed quest whose last
update is far older than the grace period. -/
def c6_q : BuddyRequest :=
  { id := 1, user_id := 7, category := .GYM, activity := "run", start_time := 0,
    location := "gym", status := .COMPLETED, updated_at := 0 }

theorem purge_deletes_exactly_witness :
    (c6_q ∈ (delete_old_quests 1000000 [c6_q] 7).1 ↔
      ¬((c6_q.status = BuddyRequestStatus.COMPLETED ∨ c6_q.status = BuddyRequestStatus.CANCELLED) ∧
        c6_q.updated_at ≤ 1000000 - 7 * 86400)) ∧
    ((c6_q.status = BuddyRequestStatus.OPEN ∨ c6_q.status = BuddyRequestStatus.IN_PROGRESS ∨
        c6_q.status = BuddyRequestStatus.FULL) → c6_q ∈ (delete_old_quests 1000000 [c6_q] 7).1) :=
  purge_deletes_exactly 1000000 [c6_q] c6_q (by simp)

/-- C1: for every quest freshly created through `create_quest` and every
sequence of Join / Accept / Reject / Leave / Remove operations applied to it
(successful or failing), `current_participants` never exceeds
`max_participants` and never goes below 1. -/
theorem quest_capacity_bounds {now : Int} {fresh_id host : Nat} {r : BuddyRequestCreate}
    {q0 : BuddyRequest} (hcreate : create_quest now fresh_id r host = .ok q0)
    (ops : List QuestOp) :
    1 ≤ (apply_ops ⟨q0, []⟩ ops).quest.current_participants ∧
    (apply_ops ⟨q0, []⟩ ops).quest.current_participants ≤
      (apply_ops ⟨q0, []⟩ ops).quest.max_participants := by
  obtain ⟨h1, -, h3, -⟩ := create_quest_ok_spec hcreate
  refine apply_ops_bounds ops ?_ ?_
  · show 1 ≤ q0.current_participants
    omega
  · show q0.current_participants ≤ q0.max_participants
    omega

/-- Concrete creation payload for the capacity-bounds witness. -/
def c1_req : BuddyRequestCreate :=
  { category := .GYM, activity := "run", location := "tait", start_time := 1000,
    max_participants := 2, requires_approval := false }

/-- The quest `create_quest 900 5 c1_req 7` returns. -/
def c1_q0 : BuddyRequest :=
  { id := 5, user_id := 7, category := .GYM, activity := "run", start_time := 1000,
    end_time := some 605800, location := "tait", max_participants := 2,
    current_participants := 1, requires_approval := false,
    status := .OPEN, created_at := 900, updated_at := 900 }

theorem quest_capacity_bounds_witness :
    1 ≤ (apply_ops ⟨c1_q0, []⟩
        [QuestOp.join 8 10 none, QuestOp.leave 8]).quest.current_participants ∧
    (apply_ops ⟨c1_q0, []⟩
        [QuestOp.join 8 10 none, QuestOp.leave 8]).quest.current_participants ≤
      (apply_ops ⟨c1_q0, []⟩
        [QuestOp.join 8 10 none, QuestOp.leave 8]).quest.max_participants :=
  quest_capacity_bounds (show create_quest 900 5 c1_req 7 = .ok c1_q0 from rfl)
    [QuestOp.join 8 10 none, QuestOp.leave 8]

/-- C3 (amended): starting from a freshly created quest whose cap is at
least 2, after every sequence of Join / Accept / Reject / Leave / Remove the
quest — while not in a terminal state — has status `full` exactly when
`current_participants` equals `max_participants`.  (As stated over all
mutating operations the claim fails: Create with `max_participants = 1`
yields an open quest already at capacity, and Update rewrites `status` and
`max_participants` with no reconciliation; see the counterexample.) -/
theorem full_iff_at_capacity {now : Int} {fresh_id host : Nat} {r : BuddyRequestCreate}
    {q0 : BuddyRequest} (hcreate : create_quest now fresh_id r host = .ok q0)
    (hmax2 : 2 ≤ q0.max_participants) (ops : List QuestOp) :
    (apply_ops ⟨q0, []⟩ ops).quest.status ≠ BuddyRequestStatus.COMPLETED →
    (apply_ops ⟨q0, []⟩ ops).quest.status ≠ BuddyRequestStatus.CANCELLED →
    ((apply_ops ⟨q0, []⟩ ops).quest.status = BuddyRequestStatus.FULL ↔
      (apply_ops ⟨q0, []⟩ ops).quest.current_participants =
        (apply_ops ⟨q0, []⟩ ops).quest.max_participants) := by
  obtain ⟨h1, h2, -, -, -, -, -, -⟩ := create_quest_ok_spec hcreate
  have hinv : CapacityInv ⟨q0, []⟩ := by
    refine ⟨?_, ?_, ?_⟩
    · show q0.current_participants = 1 + countAccepted []
      rw [countAccepted_nil, h1]
    · show q0.current_participants ≤ q0.max_participants
      omega
    · intro _ _
      show q0.status = BuddyRequestStatus.FULL ↔
        q0.current_participants = q0.max_participants
      rw [h2, h1]
      constructor
      · intro hx
        exact absurd hx (by decide)
      · intro hx
        exact absurd hx (by omega)
  exact (apply_ops_capacityInv ops hinv).2.2

/-- Creation payload with a single slot: the created quest starts at
capacity but with status `open`. -/
def c3_req : BuddyRequestCreate :=
  { category := .GYM, activity := "run", location := "gym", start_time := 1000,
    max_participants := 1 }

/-- An open under-capacity quest whose status Update will rewrite blindly. -/
def c3_upd_q : BuddyRequest :=
  { id := 2, user_id := 7, category := .GYM, activity := "run", start_time := 0,
    location := "gym", max_participants := 3, current_participants := 1,
    status := .OPEN }

theorem full_iff_capacity_cex :
    (∃ q, create_quest 1000 1 c3_req 7 = .ok q ∧
      q.status ≠ BuddyRequestStatus.COMPLETED ∧ q.status ≠ BuddyRequestStatus.CANCELLED ∧
      q.current_participants = q.max_participants ∧ q.status ≠ BuddyRequestStatus.FULL) ∧
    (∃ q, update_quest c3_upd_q { status := some BuddyRequestStatus.FULL } 7 = .ok q ∧
      q.status = BuddyRequestStatus.FULL ∧ q.status ≠ BuddyRequestStatus.COMPLETED ∧
      q.status ≠ BuddyRequestStatus.CANCELLED ∧
      q.current_participants ≠ q.max_participants) := by
  constructor
  · exact ⟨_, rfl, by decide, by decide, by decide, by decide⟩
  · exact ⟨_, rfl, by decide, by decide, by decide, by decide⟩

/-- Creation payload for the full-iff-capacity witness. -/
def c3_req2 : BuddyRequestCreate :=
  { category := .STUDY, activity := "study", location := "scott", start_time := 1000,
    max_participants := 2, requires_approval := false }

/-- The quest `create_quest 900 6 c3_req2 7` returns. -/
def c3_q0 : BuddyRequest :=
  { id := 6, user_id := 7, category := .STUDY, activity := "study", start_time := 1000,
    end_time := some 605800, location := "scott", max_participants := 2,
    current_participants := 1, requires_approval := false,
    status := .OPEN, created_at := 900, updated_at := 900 }

theorem full_iff_at_capacity_witness :
    (apply_ops ⟨c3_q0, []⟩ [QuestOp.join 8 10 none]).quest.status = BuddyRequestStatus.FULL ↔
      (apply_ops ⟨c3_q0, []⟩ [QuestOp.join 8 10 none]).quest.current_participants =
        (apply_ops ⟨c3_q0, []⟩ [QuestOp.join 8 10 none]).quest.max_participants :=
  full_iff_at_capacity (show create_quest 900 6 c3_req2 7 = .ok c3_q0 from rfl) (by decide)
    [QuestOp.join 8 10 none] (by decide) (by decide)

/-- C7: a quest created with no `end_time` receives exactly
`start_time + 7 days`, `current_participants = 1` and status `open`; creation
with a `start_time` more than 30 seconds in the past fails with a validation
error. -/
theorem create_defaults_and_validation (now : Int) (fresh_id : Nat)
    (r : BuddyRequestCreate) (user_id : Nat) :
    (∀ q, create_quest now fresh_id r user_id = .ok q → r.end_time = none →
      q.end_time = some (r.start_time + 7 * 86400) ∧
      q.current_participants = 1 ∧ q.status = BuddyRequestStatus.OPEN) ∧
    (r.start_time < now - 30 → ∃ e, create_quest now fresh_id r user_id = .error e) := by
  constructor
  · intro q hok hnone
    obtain ⟨h1, h2, -, -, -, hend, -, -⟩ := create_quest_ok_spec hok
    rw [hnone] at hend
    exact ⟨hend, h1, h2⟩
  · intro hpast
    unfold create_quest buddyRequestCreate_validate
    by_cases c1 : (r.custom_category.getD "").length > 50
    · rw [if_pos c1]
      exact ⟨_, rfl⟩
    rw [if_neg c1]
    by_cases c2 : r.category = BuddyCategory.CUSTOM ∧
        (r.custom_category = none ∨ r.custom_category = some "")
    · rw [if_pos c2]
      exact ⟨_, rfl⟩
    rw [if_neg c2]
    by_cases c3 : r.activity.length < 3 ∨ 200 < r.activity.length
    · rw [if_pos c3]
      exact ⟨_, rfl⟩
    rw [if_neg c3]
    by_cases c4 : 1000 < (r.description.getD "").length
    · rw [if_pos c4]
      exact ⟨_, rfl⟩
    rw [if_neg c4]
    rw [if_pos hpast]
    exact ⟨_, rfl⟩

/-- Creation payload with no `end_time` for the create witness. -/
def c7_req : BuddyRequestCreate :=
  { category := .FOOD, activity := "eat", location := "cafe", start_time := 500 }

theorem create_defaults_and_validation_witness :
    (∃ q, create_quest 500 4 c7_req 9 = .ok q ∧
      q.end_time = some (500 + 7 * 86400) ∧ q.current_participants = 1 ∧
      q.status = BuddyRequestStatus.OPEN) ∧
    (∃ e, create_quest 100000 4 c7_req 9 = .error e) := by
  constructor
  · obtain ⟨h1, h2, h3⟩ := (create_defaults_and_validation 500 4 c7_req 9).1 _ rfl rfl
    exact ⟨_, rfl, h1, h2, h3⟩
  · exact (create_defaults_and_validation 100000 4 c7_req 9).2 (by decide)

/-- C8: on an open quest with `max_participants = 1` (and at least the host
slot occupied), every join attempt by a non-host user fails with the
capacity error, both on the fresh-join path and on the rejoin path after a
cancelled participation. -/
theorem join_single_slot_full (s : QuestState) (uid fresh_id : Nat) (message : Option String)
    (hmax : s.quest.max_participants = 1)
    (hopen : s.quest.status = BuddyRequestStatus.OPEN)
    (hcur : 1 ≤ s.quest.current_participants)
    (hhost : s.quest.user_id ≠ uid)
    (hpart : find_by_user s uid = none ∨
      ∃ p, find_by_user s uid = some p ∧ p.status = ParticipantStatus.CANCELLED) :
    join_quest s uid fresh_id message = .error ⟨400, "Quest is full"⟩ := by
  have hcap : s.quest.max_participants ≤ s.quest.current_participants := by omega
  unfold join_quest
  rcases hpart with hnone | ⟨p, hfind, hcanc⟩
  · simp [hopen, hhost, hnone, hcap]
  · simp [hopen, hhost, hfind, hcanc, hcap]

/-- Single-slot open quest for the join-capacity witness. -/
def c8_q : BuddyRequest :=
  { id := 1, user_id := 7, category := .GYM, activity := "run", start_time := 0,
    location := "gym", max_participants := 1, current_participants := 1,
    requires_approval := false, status := .OPEN }

def c8_s : QuestState := ⟨c8_q, []⟩

theorem join_single_slot_full_witness :
    join_quest c8_s 8 10 none = .error ⟨400, "Quest is full"⟩ :=
  join_single_slot_full c8_s 8 10 none rfl rfl (by decide) (by decide) (Or.inl rfl)

/-- A fresh join (no prior participant row) on an open quest with spare
capacity by a non-host user succeeds. -/
theorem join_quest_fresh_ok (s : QuestState) (uid fresh_id : Nat) (message : Option String)
    (hopen : s.quest.status = BuddyRequestStatus.OPEN)
    (hhost : s.quest.user_id ≠ uid)
    (hcap : s.quest.current_participants < s.quest.max_participants)
    (hnone : find_by_user s uid = none) :
    ∃ res, join_quest s uid fresh_id message = .ok res := by
  unfold join_quest
  simp only [hopen, hhost, hnone, Nat.not_le.mpr hcap]
  simp

/-- A rejoin (a `cancelled` row exists) on an open quest with spare capacity
by a non-host user succeeds, re-applying the approval policy afresh. -/
theorem join_quest_rejoin_ok (s : QuestState) (uid fresh_id : Nat) (message : Option String)
    (p : BuddyParticipant)
    (hopen : s.quest.status = BuddyRequestStatus.OPEN)
    (hhost : s.quest.user_id ≠ uid)
    (hcap : s.quest.current_participants < s.quest.max_participants)
    (hfind : find_by_user s uid = some p)
    (hcanc : p.status = ParticipantStatus.CANCELLED) :
    ∃ res, join_quest s uid fresh_id message = .ok res ∧
      res.2.status = (if s.quest.requires_approval then ParticipantStatus.PENDING
        else ParticipantStatus.ACCEPTED) := by
  unfold join_quest
  simp only [hopen, hhost, hfind, hcanc, Nat.not_le.mpr hcap]
  simp

/-- C9: `leave_quest` fails with the participant 404 exactly when no row
exists for (quest, user); whenever a row exists — whatever its status,
`pending`, `accepted`, `rejected` or already `cancelled` — leave succeeds and
sets the row's status to `cancelled`, after which that user can rejoin
through the rejoin path of `join_quest` (capacity and openness permitting),
receiving `pending` or `accepted` according to the approval policy. -/
theorem leave_unconditional_cancel (s : QuestState) (uid : Nat) :
    (find_by_user s uid = none → leave_quest s uid = .error ⟨404, "Not a participant"⟩) ∧
    (∀ p, find_by_user s uid = some p →
      ∃ s2, leave_quest s uid = .ok s2 ∧
        find_by_user s2 uid = some { p with status := ParticipantStatus.CANCELLED } ∧
        (∀ fresh_id message, s2.quest.status = BuddyRequestStatus.OPEN →
          s2.quest.user_id ≠ uid →
          s2.quest.current_participants < s2.quest.max_participants →
          ∃ res, join_quest s2 uid fresh_id message = .ok res ∧
            res.2.status = (if s2.quest.requires_approval then ParticipantStatus.PENDING
              else ParticipantStatus.ACCEPTED))) := by
  constructor
  · intro hnone
    unfold leave_quest
    rw [hnone]
  · intro p hfind
    have hquest_id : (if p.status = ParticipantStatus.ACCEPTED
        then drop_and_reopen s.quest else s.quest).id = s.quest.id := by
      by_cases hacc : p.status = ParticipantStatus.ACCEPTED
      · rw [if_pos hacc]
        exact (drop_and_reopen_spec s.quest).2.2.1
      · rw [if_neg hacc]
    refine ⟨⟨if p.status = ParticipantStatus.ACCEPTED
        then drop_and_reopen s.quest else s.quest,
      update_first (by_user s.quest.id uid)
        (fun x => { x with status := ParticipantStatus.CANCELLED }) s.participants⟩,
      ?_, ?_, ?_⟩
    · unfold leave_quest
      rw [hfind]
    · show (update_first (by_user s.quest.id uid) _ s.participants).find?
        (by_user (if p.status = ParticipantStatus.ACCEPTED
          then drop_and_reopen s.quest else s.quest).id uid) = _
      rw [hquest_id]
      exact find?_update_first (by_user s.quest.id uid)
        (fun x => { x with status := ParticipantStatus.CANCELLED })
        (by intro a ha; simpa [by_user] using ha)
        s.participants p hfind
    · intro fresh_id message hopen2 hhost2 hcap2
      have hfound2 : find_by_user
          ⟨if p.status = ParticipantStatus.ACCEPTED then drop_and_reopen s.quest else s.quest,
            update_first (by_user s.quest.id uid)
              (fun x => { x with status := ParticipantStatus.CANCELLED }) s.participants⟩ uid
          = some { p with status := ParticipantStatus.CANCELLED } := by
        show (update_first (by_user s.quest.id uid) _ s.participants).find?
          (by_user (if p.status = ParticipantStatus.ACCEPTED
            then drop_and_reopen s.quest else s.quest).id uid) = _
        rw [hquest_id]
        exact find?_update_first (by_user s.quest.id uid)
          (fun x => { x with status := ParticipantStatus.CANCELLED })
          (by intro a ha; simpa [by_user] using ha)
          s.participants p hfind
      exact join_quest_rejoin_ok _ uid fresh_id message _ hopen2 hhost2 hcap2 hfound2 rfl

/-- Rejected participant row for the leave witness. -/
def c9_p : BuddyParticipant :=
  { id := 10, buddy_request_id := 1, user_id := 8, status := .REJECTED }

def c9_q : BuddyRequest :=
  { id := 1, user_id := 7, category := .GYM, activity := "run", start_time := 0,
    location := "gym", max_participants := 2, current_participants := 1,
    requires_approval := true, status := .OPEN }

def c9_s : QuestState := ⟨c9_q, [c9_p]⟩

theorem leave_unconditional_cancel_witness :
    ∃ s2, leave_quest c9_s 8 = Except.ok s2 ∧
      find_by_user s2 8 = some { c9_p with status := ParticipantStatus.CANCELLED } ∧
      ∃ res, join_quest s2 8 11 none = .ok res ∧
        res.2.status = (if s2.quest.requires_approval then ParticipantStatus.PENDING
          else ParticipantStatus.ACCEPTED) := by
  obtain ⟨s2, h1, h2, h3⟩ := (leave_unconditional_cancel c9_s 8).2 c9_p rfl
  have hS : leave_quest c9_s 8 = Except.ok
      (⟨c9_q, [{ c9_p with status := ParticipantStatus.CANCELLED }]⟩ : QuestState) := rfl
  rw [hS] at h1
  injection h1 with h1
  subst h1
  exact ⟨_, hS, h2, h3 11 none rfl (by decide) (by decide)⟩

/-- C10: `update_quest` does no state-machine validation of `status`: a
host-issued update that supplies a status writes it unconditionally —
whatever the quest's current status, terminal included — and when the new
status is `open`, join attempts succeed again (capacity permitting). -/
theorem update_status_unchecked (quest : BuddyRequest) (r : BuddyRequestUpdate)
    (caller : Nat) (st : BuddyRequestStatus)
    (hhost : quest.user_id = caller) (hst : r.status = some st) :
    update_quest quest r caller = .ok (apply_update quest r) ∧
    (apply_update quest r).status = st ∧
    (∀ parts uid fresh_id message,
      st = BuddyRequestStatus.OPEN →
      (apply_update quest r).user_id ≠ uid →
      (apply_update quest r).current_participants < (apply_update quest r).max_participants →
      find_by_user ⟨apply_update quest r, parts⟩ uid = none →
      ∃ res, join_quest ⟨apply_update quest r, parts⟩ uid fresh_id message = .ok res) := by
  have hstat : (apply_update quest r).status = st := by
    unfold apply_update
    rw [hst]
  refine ⟨?_, hstat, ?_⟩
  · unfold update_quest
    rw [if_neg (not_not_intro hhost)]
  · intro parts uid fresh_id message hOPEN hhost2 hcap hnone
    exact join_quest_fresh_ok ⟨apply_update quest r, parts⟩ uid fresh_id message
      (hOPEN ▸ hstat) hhost2 hcap hnone

/-- Completed quest for the unchecked-status-update witness. -/
def c10_q : BuddyRequest :=
  { id := 6, user_id := 7, category := .GYM, activity := "run", start_time := 0,
    location := "gym", max_participants := 3, current_participants := 1,
    status := .COMPLETED }

theorem update_status_unchecked_witness :
    (update_quest c10_q { status := some BuddyRequestStatus.OPEN } 7 =
        .ok (apply_update c10_q { status := some BuddyRequestStatus.OPEN }) ∧
      (apply_update c10_q { status := some BuddyRequestStatus.OPEN }).status =
        BuddyRequestStatus.OPEN) ∧
    ∃ res, join_quest
        ⟨apply_update c10_q { status := some BuddyRequestStatus.OPEN }, []⟩ 8 11 none =
      .ok res := by
  obtain ⟨h1, h2, h3⟩ := update_status_unchecked c10_q
    { status := some BuddyRequestStatus.OPEN } 7 BuddyRequestStatus.OPEN rfl rfl
  exact ⟨⟨h1, h2⟩, h3 [] 8 11 none rfl (by decide) (by decide) rfl⟩

/-- C2 (amended): `manage_participant` performs no quest-status check: a
host Accept of a pending participant succeeds — and increments
`current_participants` — even on a quest whose status is `completed` or
`cancelled`, as long as the capacity check passes.  (The claim as stated,
that a terminal quest rejects such an Accept, is refuted by the
counterexample.) -/
theorem accept_ignores_terminal_status (s : QuestState) (pid : Nat) (p : BuddyParticipant)
    (_hterm : s.quest.status = BuddyRequestStatus.COMPLETED ∨
      s.quest.status = BuddyRequestStatus.CANCELLED)
    (hfind : s.participants.find? (by_pid s.quest.id pid) = some p)
    (hpend : p.status = ParticipantStatus.PENDING)
    (hcap : s.quest.current_participants < s.quest.max_participants) :
    ∃ res, manage_participant s pid s.quest.user_id "accept" = .ok res ∧
      res.1.quest.current_participants = s.quest.current_participants + 1 := by
  unfold manage_participant
  simp only [hfind, hpend, Nat.not_le.mpr hcap]
  simp
  exact (bump_and_fill_spec s.quest).1

/-- Completed quest with a pending request: the host Accept goes through. -/
def c2_q : BuddyRequest :=
  { id := 1, user_id := 7, category := .GYM, activity := "run", start_time := 0,
    location := "gym", max_participants := 2, current_participants := 1,
    requires_approval := true, status := .COMPLETED }

def c2_p : BuddyParticipant :=
  { id := 10, buddy_request_id := 1, user_id := 8, status := .PENDING }

theorem accept_terminal_cex :
    c2_q.status = BuddyRequestStatus.COMPLETED ∧
    ∃ res, manage_participant ⟨c2_q, [c2_p]⟩ 10 7 "accept" = .ok res ∧
      res.2.status = ParticipantStatus.ACCEPTED ∧
      res.1.quest.current_participants = 2 :=
  ⟨rfl, ⟨_, rfl, rfl, rfl⟩⟩

/-- Terminal quest with a pending row for the amended-C2 witness. -/
def c2w_q : BuddyRequest :=
  { id := 2, user_id := 9, category := .STUDY, activity := "study", start_time := 0,
    location := "lib", max_participants := 4, current_participants := 2,
    requires_approval := true, status := .CANCELLED }

def c2w_p : BuddyParticipant :=
  { id := 20, buddy_request_id := 2, user_id := 11, status := .PENDING }

theorem accept_ignores_terminal_status_witness :
    ∃ res, manage_participant ⟨c2w_q, [c2w_p]⟩ 20 c2w_q.user_id "accept" = .ok res ∧
      res.1.quest.current_participants = 3 :=
  accept_ignores_terminal_status ⟨c2w_q, [c2w_p]⟩ 20 c2w_p
    (Or.inr rfl) rfl rfl (by decide)

/-- C4 (amended): after Create, `end_time > start_time` whenever both are
set (whether supplied or defaulted).  (After Update the claim fails:
`BuddyRequestUpdate` has no cross-field validator and `update_quest` writes
`start_time`/`end_time` unconditionally — see the counterexample.) -/
theorem end_after_start_create {now : Int} {fresh_id user_id : Nat}
    {r : BuddyRequestCreate} {q : BuddyRequest}
    (h : create_quest now fresh_id r user_id = .ok q) :
    ∀ e, q.end_time = some e → q.start_time < e := by
  obtain ⟨-, -, -, -, hstart, hend, -, hvalid⟩ := create_quest_ok_spec h
  intro e he
  rw [hend] at he
  cases hr : r.end_time with
  | none =>
      rw [hr] at he
      simp at he
      rw [hstart]
      have hw : one_week_secs = 7 * 86400 := rfl
      omega
  | some e2 =>
      rw [hr] at he
      simp at he
      rw [hstart, ← he]
      exact hvalid e2 hr

/-- A quest with a consistent time window that Update then breaks. -/
def c4_q : BuddyRequest :=
  { id := 3, user_id := 7, category := .GYM, activity := "run", start_time := 0,
    end_time := some 100, location := "gym" }

theorem end_after_start_cex :
    ∃ q2, update_quest c4_q { end_time := some (-5) } 7 = .ok q2 ∧
      q2.start_time = 0 ∧ q2.end_time = some (-5) ∧ ¬(q2.start_time < -5) :=
  ⟨_, rfl, rfl, rfl, by decide⟩

/-- Creation payload (with explicit `end_time`) for the C4 witness. -/
def c4_req : BuddyRequestCreate :=
  { category := .GAME, activity := "game", location := "hall", start_time := 100,
    end_time := some 200 }

theorem end_after_start_create_witness :
    ∃ q, create_quest 100 8 c4_req 7 = .ok q ∧
      q.end_time = some 200 ∧ q.start_time < 200 := by
  refine ⟨_, rfl, rfl, ?_⟩
  exact end_after_start_create (show create_quest 100 8 c4_req 7 = .ok _ from rfl) 200 rfl

end YorkPulse
